import Mathlib

/-
  Verification of the hw-buddy backend (session-correlated image-capture
  rendezvous, session lifecycle, upload validation) against its
  natural-language specification.

  The Python source under backend/ is shallowly embedded: module-level
  dictionaries keyed by session id become association lists over String,
  coroutine control flow with try/finally becomes explicit state passing,
  and fallible operations return sum types.
-/

namespace HWBuddy

/-! ## Association tables (embedding of Python dicts keyed by session id) -/

/-- Lookup in a session-keyed table (Python `d.get(k)` / `d[k]`). -/
def lookupT {α : Type} (t : List (String × α)) (k : String) : Option α :=
  match t.find? (fun p => p.1 == k) with
  | some p => some p.2
  | none => none

/-- Insertion `d[k] = v`: replaces any existing binding for `k`. -/
def insertT {α : Type} (t : List (String × α)) (k : String) (v : α) :
    List (String × α) :=
  (k, v) :: t.filter (fun p => !(p.1 == k))

/-- Deletion `del d[k]` (including the no-op when `k` is absent, which models
the guarded `if k in d: del d[k]` as well). -/
def eraseT {α : Type} (t : List (String × α)) (k : String) : List (String × α) :=
  t.filter (fun p => !(p.1 == k))

theorem lookupT_cons {α : Type} (p : String × α) (t : List (String × α))
    (k : String) :
    lookupT (p :: t) k = if p.1 = k then some p.2 else lookupT t k := by
  by_cases h : p.1 = k <;> simp [lookupT, List.find?_cons, h]

theorem eraseT_cons {α : Type} (p : String × α) (t : List (String × α))
    (k : String) :
    eraseT (p :: t) k = if p.1 = k then eraseT t k else p :: eraseT t k := by
  by_cases h : p.1 = k <;> simp [eraseT, List.filter_cons, h]

theorem lookupT_insertT_self {α : Type} (t : List (String × α)) (k : String) (v : α) :
    lookupT (insertT t k v) k = some v := by
  simp [lookupT, insertT, List.find?_cons]

theorem lookupT_eraseT_self {α : Type} (t : List (String × α)) (k : String) :
    lookupT (eraseT t k) k = none := by
  induction t with
  | nil => rfl
  | cons a tl ih =>
      rw [eraseT_cons]
      by_cases h : a.1 = k
      · simpa [h] using ih
      · simpa [h, lookupT_cons] using ih

theorem lookupT_eraseT_ne {α : Type} (t : List (String × α)) (k k2 : String)
    (h : k2 ≠ k) : lookupT (eraseT t k) k2 = lookupT t k2 := by
  induction t with
  | nil => rfl
  | cons a tl ih =>
      rw [eraseT_cons, lookupT_cons]
      by_cases ha : a.1 = k
      · have hne : a.1 ≠ k2 := by rw [ha]; exact fun e => h e.symm
        rw [if_pos ha, if_neg hne]; exact ih
      · rw [if_neg ha, lookupT_cons]
        by_cases hc : a.1 = k2
        · rw [if_pos hc, if_pos hc]
        · rw [if_neg hc, if_neg hc]; exact ih

theorem lookupT_insertT_ne {α : Type} (t : List (String × α)) (k k2 : String) (v : α)
    (h : k2 ≠ k) : lookupT (insertT t k v) k2 = lookupT t k2 := by
  have hk : k ≠ k2 := fun e => h e.symm
  calc lookupT (insertT t k v) k2
      = lookupT (eraseT t k) k2 := by
        simp [insertT, lookupT_cons, hk]; rfl
    _ = lookupT t k2 := lookupT_eraseT_ne t k k2 h

/-! ## `ImageUploadHandler.validate_session_id` (image_upload_handler.py) -/

/-- Characters accepted by the regex character class `[a-zA-Z0-9_-]`. -/
def allowed_char (c : Char) : Bool :=
  (97 ≤ c.toNat && c.toNat ≤ 122) || (65 ≤ c.toNat && c.toNat ≤ 90) ||
  (48 ≤ c.toNat && c.toNat ≤ 57) || c == '_' || c == '-'

/-- The string minus its final character (used for the trailing-newline case
of the Python `$` anchor). -/
def drop_last_str (s : String) : String :=
  String.mk s.toList.dropLast

/-- Whether the final character of the string is a newline. -/
def ends_with_newline (s : String) : Bool :=
  s.toList.getLast? == some (Char.ofNat 10)

/-- Embedding of Python `re.match(r^[a-zA-Z0-9_-]+$, s) is not None`.
In Python (without `re.MULTILINE`) the `$` anchor matches at the end of the
string or just before one trailing newline, so the pattern accepts either a
nonempty all-allowed string or a nonempty all-allowed string followed by a
single final newline character. -/
def py_match_class_anchored (s : String) : Bool :=
  (decide (0 < s.length) && s.toList.all allowed_char) ||
  (ends_with_newline s && decide (0 < (drop_last_str s).length) &&
    (drop_last_str s).toList.all allowed_char)

/-- Embedding of `ImageUploadHandler.validate_session_id`: falsy/empty check,
length bounds 5..100, then the anchored character-class regex. The Python
`isinstance(session_id, str)` guard is vacuous here because the embedding is
typed over `String`. -/
def validate_session_id (s : String) : Bool :=
  if s == "" then false
  else if s.length < 5 || 100 < s.length then false
  else py_match_class_anchored s

/-! ## Capture rendezvous (hw_tutor_agent.py take_picture_and_analyze_tool,
upload_events / session_images tables) -/

/-- One delivered image: raw bytes plus MIME type. -/
structure ImageData where
  bytes : List Nat
  mime : String
deriving DecidableEq, Repr

/-- Status of the single-resolution waiter for one session: the registered
`asyncio.Event` is either still awaited or has been resolved with a payload
that the suspended tool call will pick up. -/
inductive WaiterStatus where
  | waiting
  | resolved (img : ImageData)
deriving DecidableEq, Repr

/-- State of one session of the rendezvous: the registered waiter (if any)
and the `session_images` slot read by the tool after it is woken. -/
structure CaptureState where
  waiter : Option WaiterStatus
  sessionImage : Option ImageData
deriving DecidableEq, Repr

/-- State right after the tool of hw_tutor_agent.py registered its waiter:
a fresh unset `asyncio.Event` and no image stored yet. -/
def initWaiting : CaptureState :=
  CaptureState.mk (some WaiterStatus.waiting) none

/-- Modelled from the spec: the upload endpoint that defines `upload_events`
and `session_images` and performs the delivery is imported by
hw_tutor_agent.py from `main` but absent from the sources (main.py is a
different revision without these globals). Following section 4.1 of the spec:
if a waiter is registered, resolve it exactly once with the delivered bytes
and MIME type (subsequent deliveries for the same request are no-ops); if no
waiter is registered, store the payload as the last image only; a delivery is
always accepted (the returned flag is never an error). -/
def deliver_capture (d : ImageData) (s : CaptureState) : CaptureState × Bool :=
  match s.waiter with
  | some WaiterStatus.waiting =>
      (CaptureState.mk (some (WaiterStatus.resolved d)) (some d), true)
  | some (WaiterStatus.resolved _) => (s, true)
  | none => (CaptureState.mk none (some d), true)

/-- Run a burst of deliveries, tracking whether every one was accepted. -/
def deliver_capture_run (s : CaptureState) (ds : List ImageData) :
    CaptureState × Bool :=
  ds.foldl (fun p d => ((deliver_capture d p.1).1, p.2 && (deliver_capture d p.1).2))
    (s, true)

/-- Embedding of hw_tutor_agent.py line 144,
`upload_events[session_id] = upload_event`: the waiter registration is an
unconditional dictionary store (waiters are identified by a numeric id).
There is no in-flight check and no error path: any waiter already registered
for the session is silently replaced. -/
def register_upload_event (events : List (String × Nat)) (sid : String)
    (eid : Nat) : List (String × Nat) :=
  insertT events sid eid

/-- Embedding of the rate-limiting gate of `get_expert_help`
(hw_live_agent.py lines 619 to 628): the call is rejected with a busy
message only when the previous call happened strictly less than 3 seconds
ago (and a previous call exists, `last_call_time > 0`). Times are in
seconds. -/
def expert_help_gate (last_call_time now : Int) : Bool :=
  if now - last_call_time < 3 && 0 < last_call_time then false else true

/-! ## The capture tool control flow (hw_tutor_agent.py lines 126 to 181) -/

/-- How the `asyncio.wait_for(upload_event.wait(), timeout=30)` suspension
ends: the event is set by a delivery, the 30 second budget elapses, or the
enclosing turn is cancelled. -/
inductive WaitOutcome where
  | delivered
  | timedOut
  | cancelled
deriving DecidableEq, Repr

/-- Result of one run of the capture tool: the tool returns a success string
or an error string (every exception is caught inside the tool and turned into
an error-valued return), except for cancellation, which propagates as a
`CancelledError` (a `BaseException` the tool does not catch). -/
inductive ToolResult where
  | ok (msg : String)
  | errMsg (msg : String)
  | cancelledR
deriving DecidableEq, Repr

/-- Timeout of the tutor tool wait, `asyncio.wait_for(..., timeout=30)`. -/
def tutor_timeout_seconds : Nat := 30

/-- Embedding of `take_picture_and_analyze_tool`: check the session document
exists, register the waiter, send the capture command (a store write with no
observable effect here), suspend, and in every case clean the waiter table in
the `finally` block before returning. `docExists` is the result of the
Firestore existence check, `events` the `upload_events` table, `eid` the
fresh event id, and `img` the content of `session_images` for this session
when the wait ends. -/
def take_picture_flow (docExists : Bool) (events : List (String × Nat))
    (sid : String) (eid : Nat) (outcome : WaitOutcome)
    (img : Option ImageData) : ToolResult × List (String × Nat) :=
  if docExists = false then
    (ToolResult.errMsg ("Error capturing image: Session " ++ sid ++ " not found"),
      events)
  else
    let events1 := register_upload_event events sid eid
    match outcome with
    | WaitOutcome.timedOut =>
        (ToolResult.errMsg ("Error capturing image: Timeout waiting for image upload from session "
            ++ sid),
          eraseT events1 sid)
    | WaitOutcome.cancelled => (ToolResult.cancelledR, eraseT events1 sid)
    | WaitOutcome.delivered =>
        match img with
        | none =>
            (ToolResult.errMsg ("Error capturing image: No image data found for session "
                ++ sid),
              eraseT events1 sid)
        | some _ =>
            (ToolResult.ok "Image captured successfully. I can now see your homework.",
              eraseT events1 sid)

/-! ## FirestoreListener (firestore_listener.py) -/

/-- The fields of the per-session Firestore document that the snapshot
callback reads: the `command` field and the `last_image_url` field. -/
structure DocData where
  command : Option String
  last_image_url : Option String
deriving DecidableEq, Repr

/-- One snapshot event observed by the callback: either the document does not
exist or it carries data. -/
inductive Snap where
  | missing
  | doc (d : DocData)
deriving DecidableEq, Repr

/-- State of the `asyncio.Future` used by `wait_for_image_update`: pending,
resolved with document data (`future.set_result`), or resolved with an error
(`future.set_exception`). -/
inductive FutState where
  | pending
  | resolvedData (d : DocData)
  | resolvedErr (msg : String)
deriving DecidableEq, Repr

/-- Python truthiness of the optional string field (`new_image_url` is used
as a condition): `None` and the empty string are falsy. -/
def url_truthy : Option String → Bool
  | none => false
  | some s => !(s == "")

/-- The resolution predicate of the snapshot callback (firestore_listener.py
lines 65 to 67): command equals done, the image URL is truthy, and the image
URL differs from the supplied baseline `current_image_url`. -/
def snapshot_predicate (baseline : Option String) (d : DocData) : Bool :=
  (d.command == some "done") && url_truthy d.last_image_url &&
    !(d.last_image_url == baseline)

/-- Whether a snapshot satisfies the resolution predicate (a missing document
never does). -/
def snap_satisfies (baseline : Option String) : Snap → Bool
  | Snap.missing => false
  | Snap.doc d => snapshot_predicate baseline d

/-- Embedding of the `on_snapshot` callback body for one snapshot: a missing
document resolves the future with an exception; an existing document resolves
it with its data when the predicate holds; every write is guarded by
`future.done()`, so a resolved future is never changed again. -/
def on_snapshot (baseline : Option String) (fut : FutState) (s : Snap) :
    FutState :=
  match fut with
  | FutState.pending =>
      match s with
      | Snap.missing => FutState.resolvedErr "Session document not found"
      | Snap.doc d =>
          if snapshot_predicate baseline d then FutState.resolvedData d
          else FutState.pending
  | FutState.resolvedData d => FutState.resolvedData d
  | FutState.resolvedErr m => FutState.resolvedErr m

/-- Fold of the callback over the sequence of snapshots delivered by the
subscription, in order. -/
def process_snaps (baseline : Option String) (fut : FutState)
    (snaps : List Snap) : FutState :=
  snaps.foldl (on_snapshot baseline) fut

/-- How the awaited future of `wait_for_image_update` ends. -/
inductive ListenOutcome where
  | resolvedData (d : DocData)
  | timedOut
  | cancelled
  | snapErr (msg : String)
deriving DecidableEq, Repr

/-- Result of `wait_for_image_update`: returned data, a raised exception
message, or a propagating cancellation. -/
inductive ListenResult where
  | ok (d : DocData)
  | err (msg : String)
  | cancelledR
deriving DecidableEq, Repr

/-- Default timeout of `wait_for_image_update` (seconds). -/
def listener_timeout_seconds : Nat := 30

/-- Embedding of `FirestoreListener.wait_for_image_update` around the
`active_listeners` table: if the initial existence check fails, the listener
is never subscribed (the `finally` block still deletes any table entry for
the session); otherwise the listener is registered under the session id and
the `finally` block unsubscribes it and deletes the entry on success, on
timeout, on cancellation, and on any other error. `lid` is the listener
identity stored in the table. -/
def wait_for_image_update (docExists : Bool) (listeners : List (String × Nat))
    (sid : String) (lid : Nat) (outcome : ListenOutcome) :
    ListenResult × List (String × Nat) :=
  if docExists = false then
    (ListenResult.err ("Error waiting for image update: Session " ++ sid ++ " not found"),
      eraseT listeners sid)
  else
    let l1 := insertT listeners sid lid
    match outcome with
    | ListenOutcome.resolvedData d => (ListenResult.ok d, eraseT l1 sid)
    | ListenOutcome.timedOut =>
        (ListenResult.err ("Timeout waiting for image update from session " ++ sid),
          eraseT l1 sid)
    | ListenOutcome.cancelled => (ListenResult.cancelledR, eraseT l1 sid)
    | ListenOutcome.snapErr m =>
        (ListenResult.err ("Error waiting for image update: " ++ m), eraseT l1 sid)

/-! ## `capture_image_tool` (core/tool_handler.py) -/

/-- Per-session document fields read by the polling loop of
`capture_image_tool`. -/
structure CaptureDoc where
  command : Option String
  last_image_data : Option String
  last_image_filename : Option String
  last_image_content_type : Option String
deriving DecidableEq, Repr

/-- Polling timeout of `capture_image_tool`, `max_wait_time = 25` seconds. -/
def max_wait_time : Nat := 25

/-- Number of polls: the loop polls every `poll_interval = 0.5` seconds while
the elapsed time is below `max_wait_time`, so poll `k` happens at time
`k / 2` and runs exactly for `k / 2 < 25`, that is `k < 50` (idealizing away
scheduler jitter in `asyncio.sleep`). -/
def poll_count : Nat := 50

/-- The success condition checked on each poll (tool_handler.py line 71):
the document exists, its command equals image_uploaded, and its
`last_image_data` field is truthy. -/
def poll_uploaded : Option CaptureDoc → Bool
  | none => false
  | some d => (d.command == some "image_uploaded") && url_truthy d.last_image_data

/-- Result of `capture_image_tool`: the tool returns a dictionary that either
carries the image payload or an error entry; it never raises to its caller. -/
inductive CaptureToolResult where
  | success (filename content_type data : String)
  | errorR (msg : String)
deriving DecidableEq, Repr

/-- Embedding of the polling loop of `capture_image_tool`: `sched k` is the
state of the session document at poll `k`. The first poll satisfying the
upload condition returns the image payload (with the source defaults for the
missing filename and content type); if no poll within the budget does, the
tool returns the timeout error value. -/
def capture_image_tool (sched : Nat → Option CaptureDoc) : CaptureToolResult :=
  match (List.range poll_count).find? (fun k => poll_uploaded (sched k)) with
  | some k =>
      match sched k with
      | some d =>
          CaptureToolResult.success
            (d.last_image_filename.getD "homework_image.jpg")
            (d.last_image_content_type.getD "image/jpeg")
            (d.last_image_data.getD "")
      | none => CaptureToolResult.errorR "Timeout waiting for image capture from mobile device"
  | none => CaptureToolResult.errorR "Timeout waiting for image capture from mobile device"

/-! ## Connection managers (audio_websocket_server.py and main.py) -/

/-- Result of a connection attempt: accepted, or closed with a closure code
and reason before registration. -/
inductive ConnectResult where
  | accepted
  | rejected (code : Nat) (reason : String)
deriving DecidableEq, Repr

/-- Embedding of `AudioWebSocketManager.connect` (audio_websocket_server.py
lines 26 to 49): if the session already has an entry in
`active_connections`, the new socket is closed with code 1008 and the table
is left untouched; otherwise the socket is accepted and registered. Sockets
are identified by numeric ids. -/
def audio_connect (conns : List (String × Nat)) (sid : String) (ws : Nat) :
    ConnectResult × List (String × Nat) :=
  match lookupT conns sid with
  | some _ =>
      (ConnectResult.rejected 1008 "Session already has active connection", conns)
  | none => (ConnectResult.accepted, insertT conns sid ws)

/-- Embedding of `ConnectionManager.connect` (main.py lines 102 to 105): the
socket is always accepted and stored under the session id, replacing any
existing registration, with no duplicate check. -/
def main_connect (conns : List (String × Nat)) (sid : String) (ws : Nat) :
    ConnectResult × List (String × Nat) :=
  (ConnectResult.accepted, insertT conns sid ws)

/-- The socket `send_message`/`send_audio` would write to for a session: the
registered connection, if any (audio_websocket_server.py lines 93 to 110). -/
def send_target (conns : List (String × Nat)) (sid : String) : Option Nat :=
  lookupT conns sid

/-! ## HWBuddyLiveAgent sessions (hw_live_agent.py) -/

/-- The per-session record stored in `self.sessions` by `create_session`
(hw_live_agent.py lines 877 to 883): the ADK session, the live request queue
and the run config are opaque collaborator objects, represented by identity
numbers so that replacement is observable. -/
structure SessionData where
  adk_session : Nat
  live_request_queue : Nat
  run_config : Nat
  is_active : Bool
deriving DecidableEq, Repr

/-- State of `HWBuddyLiveAgent` relevant to session lifecycle: the
`self.sessions` map and the `self.current_session_id` tracker. -/
structure LiveAgentState where
  sessions : List (String × SessionData)
  current_session_id : Option String
deriving DecidableEq, Repr

/-- Embedding of `HWBuddyLiveAgent.create_session` (hw_live_agent.py lines
839 to 889): if the session id is already registered, the stored record is
returned unchanged and only the current-session tracker moves; otherwise a
fresh record (ADK session, queue, run config created by external
collaborators, here supplied as `fresh`) is stored with `is_active = False`. -/
def create_session (sid : String) (fresh : SessionData) (st : LiveAgentState) :
    SessionData × LiveAgentState :=
  match lookupT st.sessions sid with
  | some d => (d, LiveAgentState.mk st.sessions (some sid))
  | none =>
      let d := SessionData.mk fresh.adk_session fresh.live_request_queue
          fresh.run_config false
      (d, LiveAgentState.mk (insertT st.sessions sid d) (some sid))

/-- Embedding of `HWBuddyLiveAgent.get_session_status` returning whether the
session exists. -/
def get_session_status_exists (st : LiveAgentState) (sid : String) : Bool :=
  (lookupT st.sessions sid).isSome

/-- Combined state for the teardown claims: the live agent state together
with the capture-waiter table (`upload_events`) of the rendezvous. The two
live in different modules; `end_session` only ever touches
`self.sessions`. -/
structure SystemState where
  agent : LiveAgentState
  upload_events : List (String × Nat)
deriving DecidableEq, Repr

/-- Embedding of `HWBuddyLiveAgent.end_session` (hw_live_agent.py lines 991
to 996): when present, the record has `is_active` set to `False` and is then
deleted from `self.sessions`. Nothing else is read or written: no capture
waiter is resolved or cancelled. -/
def end_session (sid : String) (st : SystemState) : SystemState :=
  match lookupT st.agent.sessions sid with
  | some _ =>
      SystemState.mk
        (LiveAgentState.mk (eraseT st.agent.sessions sid)
          st.agent.current_session_id)
        st.upload_events
  | none => st

/-! ## ImageUploadHandler.upload_and_process_image (image_upload_handler.py) -/

/-- The MIME types accepted by the upload handler,
`self.supported_formats`. -/
def supported_formats : List String :=
  ["image/jpeg", "image/jpg", "image/png", "image/webp"]

/-- The size ceiling, `self.max_size = 10 * 1024 * 1024` bytes. -/
def upload_max_size : Nat := 10 * 1024 * 1024

/-- An upload request as the handler sees it: declared content type, payload
size in bytes, and whether PIL `Image.open` plus `verify` accepts the bytes
as a well-formed image (the decoder is treated as an oracle). -/
structure UploadReq where
  content_type : String
  size : Nat
  decodes : Bool
deriving DecidableEq, Repr

/-- Outcome of `upload_and_process_image`: a raised `HTTPException` with a
status code and detail, or the success response. -/
inductive UploadOutcome where
  | httpError (code : Nat) (detail : String)
  | successR (sid : String)
deriving DecidableEq, Repr

/-- Whether the outcome is a client-error rejection (4xx status). -/
def is4xx : UploadOutcome → Bool
  | UploadOutcome.httpError c _ => decide (400 ≤ c) && decide (c < 500)
  | UploadOutcome.successR _ => false

/-- Embedding of `ImageUploadHandler.upload_and_process_image`
(image_upload_handler.py lines 30 to 148) as its validation pipeline:
session existence (404), MIME type in the allowed set (400), size at most
the ceiling (400), payload decodes as an image (400); only when all checks
pass is the image handed to `store_uploaded_image`. The second component
records whether `store_uploaded_image` was called. -/
def upload_and_process_image (sessionExists : Bool) (sid : String)
    (req : UploadReq) : UploadOutcome × Bool :=
  if sessionExists = false then
    (UploadOutcome.httpError 404 ("Session " ++ sid ++ " not found"), false)
  else if supported_formats.contains req.content_type = false then
    (UploadOutcome.httpError 400 "Unsupported file type", false)
  else if upload_max_size < req.size then
    (UploadOutcome.httpError 400 "File too large. Max size: 10MB", false)
  else if req.decodes = false then
    (UploadOutcome.httpError 400 "Invalid image file", false)
  else
    (UploadOutcome.successR sid, true)

/-! ## Theorems for the claims -/

/-- Claim C9: `validate_session_id` is claimed to return `True` exactly for
strings of length 5 to 100 made only of ASCII letters, digits, underscores
and hyphens. The code uses `re.match` with a `$` anchor, which in Python also
matches just before one trailing newline, so the five-character input
consisting of `abcd` followed by a newline is accepted even though it
contains a character outside the allowed set — contradicting the claim and
the code comment stating the valid characters. -/
theorem validate_session_id_newline_bug :
    validate_session_id "abcd\n" = true ∧
    ("abcd\n".toList.all allowed_char) = false := by
  constructor <;> decide

/-- Claim C10: `create_session` is idempotent on the session table — when the
id is already registered, the stored record is returned unchanged (same ADK
session, request queue and run config), the sessions map is untouched, and
only the current-session tracker is set to the id. -/
theorem create_session_idempotent (st : LiveAgentState) (sid : String)
    (d fresh : SessionData) (h : lookupT st.sessions sid = some d) :
    create_session sid fresh st = (d, LiveAgentState.mk st.sessions (some sid)) := by
  simp [create_session, h]

/-- Witness for C10 at a concrete registered session. -/
theorem create_session_idempotent_witness :
    lookupT (LiveAgentState.mk [("sess1", SessionData.mk 1 2 3 true)] none).sessions
        "sess1" = some (SessionData.mk 1 2 3 true) ∧
    create_session "sess1" (SessionData.mk 9 9 9 false)
        (LiveAgentState.mk [("sess1", SessionData.mk 1 2 3 true)] none) =
      (SessionData.mk 1 2 3 true,
        LiveAgentState.mk [("sess1", SessionData.mk 1 2 3 true)] (some "sess1")) :=
  ⟨by decide,
    create_session_idempotent _ "sess1" _ _ (by decide)⟩

/-- Claim C7: an upload whose session is unknown, whose MIME type is outside
the allowed set, whose payload exceeds the 10 MB ceiling, or whose bytes do
not decode as an image is rejected with a 4xx error and is not handed to the
image store (`store_uploaded_image` is not called). -/
theorem upload_validation_rejects (ex : Bool) (sid : String) (req : UploadReq)
    (h : ex = false ∨ supported_formats.contains req.content_type = false ∨
      upload_max_size < req.size ∨ req.decodes = false) :
    is4xx (upload_and_process_image ex sid req).1 = true ∧
    (upload_and_process_image ex sid req).2 = false := by
  unfold upload_and_process_image
  split_ifs with h1 h2 h3 h4
  · exact ⟨rfl, rfl⟩
  · exact ⟨rfl, rfl⟩
  · exact ⟨rfl, rfl⟩
  · exact ⟨rfl, rfl⟩
  · rcases h with h | h | h | h
    · exact absurd h h1
    · exact absurd h h2
    · exact absurd h h3
    · exact absurd h h4

/-- Witness for C7: a text/plain upload for an existing session is rejected
with a 4xx error and not stored. -/
theorem upload_validation_rejects_witness :
    (true = false ∨ supported_formats.contains "text/plain" = false ∨
      upload_max_size < 100 ∨ true = false) ∧
    is4xx (upload_and_process_image true "sess1" (UploadReq.mk "text/plain" 100 true)).1
        = true ∧
    (upload_and_process_image true "sess1" (UploadReq.mk "text/plain" 100 true)).2
        = false :=
  ⟨Or.inr (Or.inl (by decide)),
    upload_validation_rejects true "sess1" (UploadReq.mk "text/plain" 100 true)
      (Or.inr (Or.inl (by decide)))⟩

/-- Counterexample to claim C5 as stated: the claim asserts that a second
streaming connection for an already-connected session id is rejected and the
first registration is left unchanged, citing both connection managers. For
`ConnectionManager.connect` in main.py this is false: with socket 1 already
registered for session s1, a second connect with socket 2 is accepted and
replaces the registration. -/
theorem main_connect_accepts_duplicate :
    lookupT [("s1", (1 : Nat))] "s1" = some 1 ∧
    (main_connect [("s1", 1)] "s1" 2).1 = ConnectResult.accepted ∧
    lookupT (main_connect [("s1", 1)] "s1" 2).2 "s1" = some 2 := by
  refine ⟨by decide, rfl, by decide⟩

/-- Claim C5 as amended: `AudioWebSocketManager.connect` rejects a duplicate
connection with closure code 1008, leaves the table unchanged so the first
socket keeps receiving events, and does not register the new socket; whereas
`ConnectionManager.connect` in main.py accepts unconditionally and replaces
the existing registration. -/
theorem duplicate_connection_policy (conns : List (String × Nat)) (sid : String)
    (ws1 ws2 : Nat) (h : lookupT conns sid = some ws1) :
    audio_connect conns sid ws2 =
      (ConnectResult.rejected 1008 "Session already has active connection", conns) ∧
    send_target (audio_connect conns sid ws2).2 sid = some ws1 ∧
    (main_connect conns sid ws2).1 = ConnectResult.accepted ∧
    lookupT (main_connect conns sid ws2).2 sid = some ws2 := by
  refine ⟨by simp [audio_connect, h], ?_, rfl, ?_⟩
  · simp [audio_connect, h, send_target]
  · simp [main_connect, lookupT_insertT_self]

/-- Witness for the amended C5 at a concrete connected state. -/
theorem duplicate_connection_policy_witness :
    lookupT [("s1", (1 : Nat))] "s1" = some 1 ∧
    audio_connect [("s1", 1)] "s1" 2 =
      (ConnectResult.rejected 1008 "Session already has active connection",
        [("s1", 1)]) ∧
    send_target (audio_connect [("s1", 1)] "s1" 2).2 "s1" = some 1 ∧
    (main_connect [("s1", 1)] "s1" 2).1 = ConnectResult.accepted ∧
    lookupT (main_connect [("s1", 1)] "s1" 2).2 "s1" = some 2 :=
  ⟨by decide, duplicate_connection_policy [("s1", 1)] "s1" 1 2 (by decide)⟩

/-- A concrete system state with a registered session and a pending capture
waiter for it, used to refute claim C6. -/
def c6_pending_state : SystemState :=
  SystemState.mk
    (LiveAgentState.mk [("sess1", SessionData.mk 1 2 3 true)] (some "sess1"))
    [("sess1", 7)]

/-- Counterexample to claim C6 as stated: ending a session with a pending
capture waiter neither resolves nor cancels that waiter before the record is
dropped (`end_session` only deletes the `self.sessions` entry), and a late
image delivery for the removed session is not accepted without error — the
upload handler rejects it with a 404 session-not-found error. -/
theorem end_session_leaves_capture_and_rejects_late_upload :
    lookupT (end_session "sess1" c6_pending_state).upload_events "sess1" = some 7 ∧
    lookupT (end_session "sess1" c6_pending_state).agent.sessions "sess1" = none ∧
    upload_and_process_image
        (get_session_status_exists (end_session "sess1" c6_pending_state).agent "sess1")
        "sess1" (UploadReq.mk "image/jpeg" 100 true) =
      (UploadOutcome.httpError 404 "Session sess1 not found", false) := by
  refine ⟨by decide, by decide, by decide⟩

/-- Claim C6 as amended: `end_session` drops the session record without
touching the capture-waiter table (no cancellation of a pending capture
happens on this path), and a late image upload for the removed session is
rejected by the upload handler with a 404 session-not-found error, so
`store_uploaded_image` is not called and no live session state changes. -/
theorem end_session_drop_and_late_upload (st : SystemState) (sid : String)
    (req : UploadReq) :
    (end_session sid st).upload_events = st.upload_events ∧
    lookupT (end_session sid st).agent.sessions sid = none ∧
    upload_and_process_image
        (get_session_status_exists (end_session sid st).agent sid) sid req =
      (UploadOutcome.httpError 404 ("Session " ++ sid ++ " not found"), false) := by
  cases h : lookupT st.agent.sessions sid with
  | none =>
      refine ⟨by simp [end_session, h], by simp [end_session, h], ?_⟩
      simp [end_session, h, get_session_status_exists, upload_and_process_image]
  | some d =>
      refine ⟨by simp [end_session, h], ?_, ?_⟩
      · simp [end_session, h, lookupT_eraseT_self]
      · simp [end_session, h, get_session_status_exists, lookupT_eraseT_self,
          upload_and_process_image]

/-- Counterexample to claim C1 as stated: the claim asserts that issuing a
second capture request for a session with one pending returns
`CaptureAlreadyInFlight` without creating a second waiter and without
altering the first request's eventual resolution. The registration in
`take_picture_and_analyze_tool` is an unconditional dictionary store with no
in-flight check and no error path: after registering waiter 1 and then
waiter 2 for session s1, the table maps s1 to waiter 2 — the first waiter
has been silently dropped, so a delivery can no longer resolve it. -/
theorem second_capture_request_overwrites :
    lookupT (register_upload_event (register_upload_event [] "s1" 1) "s1" 2) "s1"
        = some 2 ∧
    lookupT (register_upload_event (register_upload_event [] "s1" 1) "s1" 2) "s1"
        ≠ some 1 := by
  refine ⟨by decide, by decide⟩

/-- Claim C1 as amended: a second capture registration for a session is not
rejected — it replaces the pending waiter entry (so the table still carries
at most one entry per session id, but the first request's resolution is
altered: its waiter is no longer registered), other sessions are unaffected,
and the only in-flight guard in the sources, the rate limiter of
`get_expert_help`, rejects a repeat call only when it arrives strictly less
than 3 seconds after the previous one — a repeat call 3 or more seconds
later passes the gate even while the first capture is still pending. -/
theorem capture_request_replacement_policy (events : List (String × Nat))
    (sid : String) (e1 e2 : Nat) (last now : Int) (h : 3 ≤ now - last) :
    lookupT (register_upload_event (register_upload_event events sid e1) sid e2) sid
        = some e2 ∧
    (∀ s2, s2 ≠ sid →
      lookupT (register_upload_event (register_upload_event events sid e1) sid e2) s2
        = lookupT events s2) ∧
    expert_help_gate last now = true := by
  refine ⟨lookupT_insertT_self _ _ _, ?_, ?_⟩
  · intro s2 hs
    unfold register_upload_event
    rw [lookupT_insertT_ne _ _ _ _ hs, lookupT_insertT_ne _ _ _ _ hs]
  · have hlt : ¬(now - last < 3) := not_lt.mpr h
    simp [expert_help_gate, hlt]

/-- Witness for the amended C1 at concrete waiters and times. -/
theorem capture_request_replacement_policy_witness :
    ((3 : Int) ≤ 10 - 5) ∧
    (lookupT (register_upload_event (register_upload_event [] "s1" 1) "s1" 2) "s1"
        = some 2 ∧
    (∀ s2, s2 ≠ "s1" →
      lookupT (register_upload_event (register_upload_event [] "s1" 1) "s1" 2) s2
        = lookupT ([] : List (String × Nat)) s2) ∧
    expert_help_gate 5 10 = true) :=
  ⟨by decide, capture_request_replacement_policy [] "s1" 1 2 5 10 (by decide)⟩

/-- Folding further deliveries over an already-resolved waiter changes
nothing: the waiter keeps its payload, the stored image is untouched, and the
acceptance flag is preserved. -/
theorem deliver_run_after_resolved (ds : List ImageData) (e : ImageData)
    (img : Option ImageData) (b : Bool) :
    ds.foldl
      (fun p d => ((deliver_capture d p.1).1, p.2 && (deliver_capture d p.1).2))
      (CaptureState.mk (some (WaiterStatus.resolved e)) img, b) =
    (CaptureState.mk (some (WaiterStatus.resolved e)) img, b) := by
  induction ds with
  | nil => rfl
  | cons d tl ih => simpa [deliver_capture] using ih

/-- Claim C2: delivering image bytes multiple times in quick succession while
a waiter is registered resolves the waiter exactly once, with the first
delivery's bytes and MIME type (also the payload left in the
`session_images` slot the tool reads); every delivery in the burst is
accepted without error, and the deliveries after the first do not re-resume
the resolved waiter. The delivery side is modelled from the spec because the
upload endpoint is absent from the sources (see `deliver_capture`). -/
theorem deliver_capture_exactly_once (d : ImageData) (ds : List ImageData) :
    (deliver_capture_run initWaiting (d :: ds)).1.waiter
        = some (WaiterStatus.resolved d) ∧
    (deliver_capture_run initWaiting (d :: ds)).1.sessionImage = some d ∧
    (deliver_capture_run initWaiting (d :: ds)).2 = true := by
  have h1 : deliver_capture_run initWaiting (d :: ds)
      = (CaptureState.mk (some (WaiterStatus.resolved d)) (some d), true) := by
    unfold deliver_capture_run
    rw [List.foldl_cons]
    exact deliver_run_after_resolved ds d (some d) true
  rw [h1]
  exact ⟨rfl, rfl, rfl⟩

/-- Claim C3: however the capture wait ends — delivery, timeout, or
cancellation — the `finally` blocks leave no waiter entry in the
`upload_events` table and no listener entry in the `active_listeners` table
for the session (the listener table is cleared even when the initial
existence check fails before subscribing). -/
theorem capture_cleanup_on_all_paths (events : List (String × Nat)) (sid : String)
    (eid : Nat) (outcome : WaitOutcome) (img : Option ImageData) (docExists : Bool)
    (listeners : List (String × Nat)) (lid : Nat) (loutcome : ListenOutcome) :
    lookupT (take_picture_flow true events sid eid outcome img).2 sid = none ∧
    lookupT (wait_for_image_update docExists listeners sid lid loutcome).2 sid
        = none := by
  constructor
  · cases outcome with
    | timedOut => simp [take_picture_flow, lookupT_eraseT_self]
    | cancelled => simp [take_picture_flow, lookupT_eraseT_self]
    | delivered => cases img <;> simp [take_picture_flow, lookupT_eraseT_self]
  · cases docExists with
    | false => simp [wait_for_image_update, lookupT_eraseT_self]
    | true => cases loutcome <;> simp [wait_for_image_update, lookupT_eraseT_self]

/-- Claim C4: when no image is ever delivered, the polling capture tool
returns its timeout as an error-valued dictionary after its 25 second
budget, the tutor tool returns its timeout as an error string after its 30
second budget (the exception is caught inside the tool), and both budgets
lie in the 25 to 30 second default range. -/
theorem capture_timeout_typed_error (sched : Nat → Option CaptureDoc)
    (h : ∀ k, poll_uploaded (sched k) = false) (events : List (String × Nat))
    (sid : String) (eid : Nat) (img : Option ImageData) :
    capture_image_tool sched
        = CaptureToolResult.errorR "Timeout waiting for image capture from mobile device" ∧
    (take_picture_flow true events sid eid WaitOutcome.timedOut img).1
        = ToolResult.errMsg
            ("Error capturing image: Timeout waiting for image upload from session "
              ++ sid) ∧
    25 ≤ max_wait_time ∧ max_wait_time ≤ 30 ∧
    25 ≤ tutor_timeout_seconds ∧ tutor_timeout_seconds ≤ 30 := by
  have hfind : (List.range poll_count).find? (fun k => poll_uploaded (sched k))
      = none :=
    List.find?_eq_none.mpr (fun x _ => by simp [h x])
  refine ⟨?_, by simp [take_picture_flow], by decide, by decide, by decide, by decide⟩
  simp [capture_image_tool, hfind]

/-- Witness for C4 on the schedule where the document never carries an
uploaded image. -/
theorem capture_timeout_typed_error_witness :
    (∀ k : Nat, poll_uploaded ((fun _ => (none : Option CaptureDoc)) k) = false) ∧
    (capture_image_tool (fun _ => none)
        = CaptureToolResult.errorR "Timeout waiting for image capture from mobile device" ∧
    (take_picture_flow true [] "s1" 0 WaitOutcome.timedOut none).1
        = ToolResult.errMsg
            ("Error capturing image: Timeout waiting for image upload from session "
              ++ "s1") ∧
    25 ≤ max_wait_time ∧ max_wait_time ≤ 30 ∧
    25 ≤ tutor_timeout_seconds ∧ tutor_timeout_seconds ≤ 30) :=
  ⟨fun _ => rfl,
    capture_timeout_typed_error (fun _ => none) (fun _ => rfl) [] "s1" 0 none⟩

/-- A resolved future is never changed again by later snapshots (the
`future.done()` guards). -/
theorem process_snaps_resolvedData (baseline : Option String) (d : DocData)
    (snaps : List Snap) :
    process_snaps baseline (FutState.resolvedData d) snaps
        = FutState.resolvedData d := by
  induction snaps with
  | nil => rfl
  | cons s tl ih => simpa [process_snaps, on_snapshot] using ih

/-- The document data of the first snapshot satisfying the resolution
predicate, if any. -/
def first_satisfying_doc (baseline : Option String) (snaps : List Snap) :
    Option DocData :=
  match snaps.find? (snap_satisfies baseline) with
  | some (Snap.doc d) => some d
  | some Snap.missing => none
  | none => none

/-- Counterexample to claim C8 as stated: the claim asserts that snapshots
not satisfying all three conditions never resolve the future, but a snapshot
whose document does not exist satisfies none of them and still resolves the
future — with a session-document-not-found error. -/
theorem missing_doc_resolves_future :
    process_snaps none FutState.pending [Snap.missing]
        = FutState.resolvedErr "Session document not found" ∧
    snap_satisfies none Snap.missing = false :=
  ⟨rfl, rfl⟩

/-- Claim C8 as amended: provided every observed snapshot's document exists,
the future is resolved with the document data exactly of the first snapshot
satisfying the predicate (command equals done, image URL nonempty, image URL
differs from the baseline), and stays pending when no snapshot satisfies it;
a snapshot with a missing document instead resolves the future with an
error. -/
theorem snapshot_resolution_exact (baseline : Option String) (snaps : List Snap)
    (h : ∀ s ∈ snaps, s ≠ Snap.missing) :
    process_snaps baseline FutState.pending snaps =
      (match first_satisfying_doc baseline snaps with
       | some d => FutState.resolvedData d
       | none => FutState.pending) := by
  induction snaps with
  | nil => rfl
  | cons s tl ih =>
      cases s with
      | missing => exact absurd rfl (h Snap.missing (List.mem_cons_self _ _))
      | doc d =>
          have htl : ∀ s2 ∈ tl, s2 ≠ Snap.missing :=
            fun s2 hs => h s2 (List.mem_cons_of_mem _ hs)
          by_cases hp : snapshot_predicate baseline d = true
          · have hstep : process_snaps baseline FutState.pending (Snap.doc d :: tl)
                = process_snaps baseline (FutState.resolvedData d) tl := by
              simp [process_snaps, on_snapshot, hp]
            rw [hstep, process_snaps_resolvedData]
            simp [first_satisfying_doc, List.find?_cons, snap_satisfies, hp]
          · have hp2 : snapshot_predicate baseline d = false := by
              cases hq : snapshot_predicate baseline d
              · rfl
              · exact absurd hq hp
            have hstep : process_snaps baseline FutState.pending (Snap.doc d :: tl)
                = process_snaps baseline FutState.pending tl := by
              simp [process_snaps, on_snapshot, hp2]
            rw [hstep, ih htl]
            simp [first_satisfying_doc, List.find?_cons, snap_satisfies, hp2]

/-- A concrete baseline for the C8 witness. -/
def c8_baseline : Option String := some "old"

/-- A concrete snapshot sequence for the C8 witness: first a snapshot still
carrying the baseline URL and a pending command, then one satisfying the
resolution predicate. -/
def c8_snaps : List Snap :=
  [Snap.doc (DocData.mk (some "take_picture") (some "old")),
   Snap.doc (DocData.mk (some "done") (some "new"))]

/-- Witness for the amended C8 at the concrete snapshot sequence. -/
theorem snapshot_resolution_exact_witness :
    (∀ s ∈ c8_snaps, s ≠ Snap.missing) ∧
    process_snaps c8_baseline FutState.pending c8_snaps =
      (match first_satisfying_doc c8_baseline c8_snaps with
       | some d => FutState.resolvedData d
       | none => FutState.pending) :=
  ⟨by decide, snapshot_resolution_exact c8_baseline c8_snaps (by decide)⟩

end HWBuddy
